import Mathlib

/-!
Shallow embedding of the NACA airfoil coordinate generator
(src/airfoil.py) and verification of its specification claims.

The Python source computes with numpy floats; the embedding models the
numeric pipeline exactly: the polynomial camber-line and digit-parsing
layers are rational valued and executable, while the surface-point layer
(which uses sqrt, arctan, sin, cos) is modelled over the reals.
-/

namespace Naca

/-- Value of a decimal digit character, as Python `int` reads it
(`ord c - 48`). -/
def charDigit (c : Char) : ℕ := c.toNat - 48

/-- Python `int(s)` on a string of decimal digit characters. -/
def intOfDigits (cs : List Char) : ℕ :=
  cs.foldl (fun a c => 10 * a + charDigit c) 0

/-- `np.linspace(0, 1, n)`: `n` evenly spaced samples over `[0, 1]`,
sample `i` being `i / (n - 1)`. -/
def linspace (n : ℕ) : List ℚ :=
  (List.range n).map (fun (i : ℕ) => (i : ℚ) / ((n : ℚ) - 1))

/-- Four-digit mean camber line, the loop body of `generate_naca4`
(src/airfoil.py lines 24-30): first branch when `x < p and p != 0`,
second when `p != 0`, otherwise the array entry keeps its zero
initialisation. -/
def yc4 (m p x : ℚ) : ℚ :=
  if x < p ∧ p ≠ 0 then m / p ^ 2 * (2 * p * x - x ^ 2)
  else if p ≠ 0 then m / (1 - p) ^ 2 * ((1 - 2 * p) + 2 * p * x - x ^ 2)
  else 0

/-- Four-digit camber slope `dyc_dx`, same loop body. -/
def dyc4 (m p x : ℚ) : ℚ :=
  if x < p ∧ p ≠ 0 then 2 * m / p ^ 2 * (p - x)
  else if p ≠ 0 then 2 * m / (1 - p) ^ 2 * (p - x)
  else 0

/-- Five-digit mean camber line, the loop body of `generate_naca5`
(src/airfoil.py lines 58-64).  Note that the source repeats the same
expression in both branches of the piecewise split. -/
def yc5 (cld p x : ℚ) : ℚ :=
  if x < p ∧ p ≠ 0 then cld / 6 * (3 * p ^ 2 - 6 * p * x + 4 * x ^ 2)
  else if p ≠ 0 then cld / 6 * (3 * p ^ 2 - 6 * p * x + 4 * x ^ 2)
  else 0

/-- Five-digit camber slope, same loop body. -/
def dyc5 (cld p x : ℚ) : ℚ :=
  if x < p ∧ p ≠ 0 then cld / 6 * (-6 * p + 8 * x)
  else if p ≠ 0 then cld / 6 * (-6 * p + 8 * x)
  else 0

/-- `m = int(naca[0]) / 100` (line 14). -/
def m4 (naca : List Char) : ℚ := (intOfDigits (naca.take 1) : ℚ) / 100

/-- `p = int(naca[1]) / 10` (line 15). -/
def p4 (naca : List Char) : ℚ := (intOfDigits ((naca.drop 1).take 1) : ℚ) / 10

/-- `t = int(naca[2:]) / 100` (line 16). -/
def t4 (naca : List Char) : ℚ := (intOfDigits (naca.drop 2) : ℚ) / 100

/-- `cld = int(naca[0]) * 0.15` (line 48). -/
def cld5 (naca : List Char) : ℚ := (intOfDigits (naca.take 1) : ℚ) * (15 / 100)

/-- `p = int(naca[1:3]) / 20` (line 49). -/
def p5 (naca : List Char) : ℚ := (intOfDigits ((naca.drop 1).take 2) : ℚ) / 20

/-- `t = int(naca[3:5]) / 100` (line 50). -/
def t5 (naca : List Char) : ℚ := (intOfDigits ((naca.drop 3).take 2) : ℚ) / 100

/-- `t = int(naca[-3:]) / 100` (line 81). -/
def t6 (naca : List Char) : ℚ :=
  (intOfDigits (naca.drop (naca.length - 3)) : ℚ) / 100

/-- Thickness half-width of `generate_naca4` (line 19):
`yt = 5*t*(0.2969*sqrt(x) - 0.1260*x - 0.3516*x**2 + 0.2843*x**3 - 0.1015*x**4)`. -/
noncomputable def yt4 (t x : ℚ) : ℝ :=
  5 * (t : ℝ) * (0.2969 * Real.sqrt (x : ℝ) - 0.1260 * (x : ℝ)
    - 0.3516 * (x : ℝ) ^ 2 + 0.2843 * (x : ℝ) ^ 3 - 0.1015 * (x : ℝ) ^ 4)

/-- Thickness half-width of `generate_naca5` (line 53); the literal is
written `0.126` there. -/
noncomputable def yt5 (t x : ℚ) : ℝ :=
  5 * (t : ℝ) * (0.2969 * Real.sqrt (x : ℝ) - 0.126 * (x : ℝ)
    - 0.3516 * (x : ℝ) ^ 2 + 0.2843 * (x : ℝ) ^ 3 - 0.1015 * (x : ℝ) ^ 4)

/-- Thickness half-width of `generate_naca6` (line 84). -/
noncomputable def yt6 (t x : ℚ) : ℝ :=
  5 * (t : ℝ) * (0.2969 * Real.sqrt (x : ℝ) - 0.126 * (x : ℝ)
    - 0.3516 * (x : ℝ) ^ 2 + 0.2843 * (x : ℝ) ^ 3 - 0.1015 * (x : ℝ) ^ 4)

/-- `theta = arctan(dyc_dx)` for the four-digit generator (line 32). -/
noncomputable def theta4 (m p x : ℚ) : ℝ := Real.arctan ((dyc4 m p x : ℝ))

/-- Upper surface point `(xu, yu)` of `generate_naca4` (lines 34-35). -/
noncomputable def surfU4 (m p t x : ℚ) : ℝ × ℝ :=
  ((x : ℝ) - yt4 t x * Real.sin (theta4 m p x),
   (yc4 m p x : ℝ) + yt4 t x * Real.cos (theta4 m p x))

/-- Lower surface point `(xl, yl)` of `generate_naca4` (lines 36-37). -/
noncomputable def surfL4 (m p t x : ℚ) : ℝ × ℝ :=
  ((x : ℝ) + yt4 t x * Real.sin (theta4 m p x),
   (yc4 m p x : ℝ) - yt4 t x * Real.cos (theta4 m p x))

/-- `theta` for the five-digit generator (line 66). -/
noncomputable def theta5 (cld p x : ℚ) : ℝ := Real.arctan ((dyc5 cld p x : ℝ))

/-- Upper surface point of `generate_naca5` (lines 68-69). -/
noncomputable def surfU5 (cld p t x : ℚ) : ℝ × ℝ :=
  ((x : ℝ) - yt5 t x * Real.sin (theta5 cld p x),
   (yc5 cld p x : ℝ) + yt5 t x * Real.cos (theta5 cld p x))

/-- Lower surface point of `generate_naca5` (lines 70-71). -/
noncomputable def surfL5 (cld p t x : ℚ) : ℝ × ℝ :=
  ((x : ℝ) + yt5 t x * Real.sin (theta5 cld p x),
   (yc5 cld p x : ℝ) - yt5 t x * Real.cos (theta5 cld p x))

/-- Unscaled point sequence of `generate_naca4`:
`concatenate([upper reversed, lower without its first element])`
(lines 39-40, before the `* chord`). -/
noncomputable def naca4base (m p t : ℚ) (n : ℕ) : List (ℝ × ℝ) :=
  ((linspace n).map (fun x => surfU4 m p t x)).reverse
    ++ ((linspace n).map (fun x => surfL4 m p t x)).drop 1

/-- Point sequence returned by `generate_naca4`, every coordinate scaled
by the chord (lines 39-42). -/
noncomputable def naca4points (m p t : ℚ) (chord : ℝ) (n : ℕ) : List (ℝ × ℝ) :=
  (naca4base m p t n).map (fun q => (q.1 * chord, q.2 * chord))

/-- Unscaled point sequence of `generate_naca5` (lines 73-74). -/
noncomputable def naca5base (cld p t : ℚ) (n : ℕ) : List (ℝ × ℝ) :=
  ((linspace n).map (fun x => surfU5 cld p t x)).reverse
    ++ ((linspace n).map (fun x => surfL5 cld p t x)).drop 1

/-- Point sequence returned by `generate_naca5` (lines 73-76). -/
noncomputable def naca5points (cld p t : ℚ) (chord : ℝ) (n : ℕ) : List (ℝ × ℝ) :=
  (naca5base cld p t n).map (fun q => (q.1 * chord, q.2 * chord))

/-- Unscaled point sequence of `generate_naca6`: the six-digit generator
builds no camber line, the upper surface is `(x, yt)` and the lower
surface `(x, -yt)` (lines 86-88). -/
noncomputable def naca6base (t : ℚ) (n : ℕ) : List (ℝ × ℝ) :=
  ((linspace n).map (fun (x : ℚ) => ((x : ℝ), yt6 t x))).reverse
    ++ ((linspace n).map (fun (x : ℚ) => ((x : ℝ), -yt6 t x))).drop 1

/-- Point sequence returned by `generate_naca6` (lines 87-90). -/
noncomputable def naca6points (t : ℚ) (chord : ℝ) (n : ℕ) : List (ℝ × ℝ) :=
  (naca6base t n).map (fun q => (q.1 * chord, q.2 * chord))

/-- `generate_naca4(naca, chord, num_points)` (lines 13-42), with the
designation given as its character list. -/
noncomputable def generate_naca4 (naca : List Char) (chord : ℝ) (n : ℕ) :
    List (ℝ × ℝ) :=
  naca4points (m4 naca) (p4 naca) (t4 naca) chord n

/-- `generate_naca5(naca, chord, num_points)` (lines 44-76). -/
noncomputable def generate_naca5 (naca : List Char) (chord : ℝ) (n : ℕ) :
    List (ℝ × ℝ) :=
  naca5points (cld5 naca) (p5 naca) (t5 naca) chord n

/-- `generate_naca6(naca, chord, num_points)` (lines 78-90). -/
noncomputable def generate_naca6 (naca : List Char) (chord : ℝ) (n : ℕ) :
    List (ℝ × ℝ) :=
  naca6points (t6 naca) chord n

/-- The three series the selectbox offers (line 94). -/
inductive Series
  | fourDigit
  | fiveDigit
  | sixDigit
deriving DecidableEq

/-- Digit count each series expects in the dispatch condition
(lines 106-108). -/
def expectedLen : Series → ℕ
  | .fourDigit => 4
  | .fiveDigit => 5
  | .sixDigit => 6

/-- The validation test of the dispatch (lines 106-108):
`len(naca) == k and naca.isdigit()` for the selected series. -/
def validInput (s : Series) (naca : List Char) : Bool :=
  naca.length == expectedLen s && naca.all Char.isDigit

/-- Error kinds of the generator interface; the source reports a
designation failure through the `st.error` branch (lines 140-141). -/
inductive GenError
  | invalidDesignation
deriving DecidableEq

/-- Generator selected for each series inside the dispatch
(lines 110-115). -/
noncomputable def genBySeries : Series → List Char → ℝ → ℕ → List (ℝ × ℝ)
  | .fourDigit => generate_naca4
  | .fiveDigit => generate_naca5
  | .sixDigit => generate_naca6

/-- The button dispatch (lines 105-141): validate the digit string, then
call the generator of the selected series; on failure report an error and
produce no point sequence. -/
noncomputable def dispatch (s : Series) (naca : List Char) (chord : ℝ)
    (n : ℕ) : Except GenError (List (ℝ × ℝ)) :=
  if validInput s naca then .ok (genBySeries s naca chord n)
  else .error .invalidDesignation

/-- The thickness formula as the specification states it, shared by all
series and parameterized only by the thickness fraction `t`. -/
noncomputable def ytSpec (t x : ℝ) : ℝ :=
  5 * t * (0.2969 * Real.sqrt x - 0.1260 * x
    - 0.3516 * x ^ 2 + 0.2843 * x ^ 3 - 0.1015 * x ^ 4)

/-! ### Helper lemmas -/

lemma linspace_length (n : ℕ) : (linspace n).length = n := by
  rw [linspace, List.length_map, List.length_range]

lemma naca4points_length (m p t : ℚ) (c : ℝ) (n : ℕ) :
    (naca4points m p t c n).length = n + (n - 1) := by
  simp [naca4points, naca4base, linspace_length]

lemma naca5points_length (cld p t : ℚ) (c : ℝ) (n : ℕ) :
    (naca5points cld p t c n).length = n + (n - 1) := by
  simp [naca5points, naca5base, linspace_length]

lemma naca6points_length (t : ℚ) (c : ℝ) (n : ℕ) :
    (naca6points t c n).length = n + (n - 1) := by
  simp [naca6points, naca6base, linspace_length]

lemma map_scale_two (L : List (ℝ × ℝ)) :
    L.map (fun q => (q.1 * 2, q.2 * 2)) =
      (L.map (fun q => (q.1 * 1, q.2 * 1))).map (fun q => (2 * q.1, 2 * q.2)) := by
  rw [List.map_map]
  refine List.map_congr_left fun q _ => ?_
  simp [mul_comm]

lemma yc4_p0 (m x : ℚ) : yc4 m 0 x = 0 := by
  simp [yc4]

lemma dyc4_p0 (m x : ℚ) : dyc4 m 0 x = 0 := by
  simp [dyc4]

lemma yt4_at_zero (t : ℚ) : yt4 t 0 = 0 := by
  norm_num [yt4]

lemma surfU4_p0 (m t x : ℚ) : surfU4 m 0 t x = ((x : ℝ), yt4 t x) := by
  simp [surfU4, theta4, dyc4_p0, yc4_p0]

lemma surfL4_p0 (m t x : ℚ) : surfL4 m 0 t x = ((x : ℝ), -yt4 t x) := by
  simp [surfL4, theta4, dyc4_p0, yc4_p0]

lemma linspace_take_one (n : ℕ) (x : ℚ) (hx : x ∈ (linspace n).take 1) :
    x = 0 := by
  rcases n with _ | k
  · simp [linspace] at hx
  · rw [linspace, List.range_succ_eq_map] at hx
    simp at hx
    exact hx

lemma rev_symm_generic (f g : ℚ → ℝ × ℝ) (xs : List ℚ)
    (hfg : ∀ x, ((f x).1, -(f x).2) = g x)
    (hgf : ∀ x, ((g x).1, -(g x).2) = f x)
    (hhead : ∀ x ∈ xs.take 1, f x = g x) :
    (xs.map f).reverse ++ (xs.map g).drop 1 =
      (((xs.map f).reverse ++ (xs.map g).drop 1).reverse).map
        (fun q => (q.1, -q.2)) := by
  rcases xs with _ | ⟨x0, ys⟩
  · simp
  · have h0 : f x0 = g x0 := hhead x0 (by simp)
    have hgf2 : ((fun q : ℝ × ℝ => (q.1, -q.2)) ∘ g) = f := funext fun x => hgf x
    have hfg2 : ((fun q : ℝ × ℝ => (q.1, -q.2)) ∘ f) = g := funext fun x => hfg x
    simp only [List.map_cons, List.drop_succ_cons, List.drop_zero,
      List.reverse_cons, List.reverse_append, List.reverse_reverse,
      List.map_append, List.map_map, List.map_reverse, hgf2, hfg2,
      List.map_nil, List.append_assoc, List.singleton_append,
      List.cons_append, List.nil_append]
    rw [hfg x0, ← h0]

lemma naca4base_p0_symm (m t : ℚ) (n : ℕ) :
    naca4base m 0 t n =
      ((naca4base m 0 t n).reverse).map (fun q => (q.1, -q.2)) := by
  have hU : (linspace n).map (fun x => surfU4 m 0 t x) =
      (linspace n).map (fun (x : ℚ) => ((x : ℝ), yt4 t x)) :=
    List.map_congr_left fun x _ => surfU4_p0 m t x
  have hL : (linspace n).map (fun x => surfL4 m 0 t x) =
      (linspace n).map (fun (x : ℚ) => ((x : ℝ), -yt4 t x)) :=
    List.map_congr_left fun x _ => surfL4_p0 m t x
  rw [naca4base, hU, hL]
  refine rev_symm_generic _ _ _ (fun x => rfl) (fun x => by simp) ?_
  intro x hx
  rw [linspace_take_one n x hx]
  simp [yt4_at_zero]

lemma naca4points_p0_symm (m t : ℚ) (c : ℝ) (n : ℕ) :
    naca4points m 0 t c n =
      ((naca4points m 0 t c n).reverse).map (fun q => (q.1, -q.2)) := by
  rw [naca4points]
  calc (naca4base m 0 t n).map (fun q => (q.1 * c, q.2 * c))
      = (((naca4base m 0 t n).reverse).map (fun q => (q.1, -q.2))).map
          (fun q => (q.1 * c, q.2 * c)) := by rw [← naca4base_p0_symm]
    _ = (((naca4base m 0 t n).reverse).map (fun q => (q.1 * c, q.2 * c))).map
          (fun q => (q.1, -q.2)) := by
        rw [List.map_map, List.map_map]
        exact List.map_congr_left fun q _ => by simp
    _ = ((((naca4base m 0 t n).map (fun q => (q.1 * c, q.2 * c))).reverse)).map
          (fun q => (q.1, -q.2)) := by rw [List.map_reverse]

lemma naca4points_ex_ne_nil :
    naca4points (2/100) 0 (12/100) 1 2 ≠ [] := by
  intro hnil
  have h := naca4points_length (2/100) 0 (12/100) 1 2
  rw [hnil] at h
  simp at h

/-! ### Claim theorems -/

/-- C1: for every four-digit parameter pair with `p ≠ 0` and every sample
`x`, the camber line and slope follow the piecewise formulas of the
specification: the `x < p` branch gives `yc = (m/p^2)*(2px - x^2)` with
slope `(2m/p^2)*(p - x)`, the `x ≥ p` branch gives
`yc = (m/(1-p)^2)*((1-2p) + 2px - x^2)` with slope `(2m/(1-p)^2)*(p - x)`,
and the boundary sample `x = p` is assigned to exactly the `x ≥ p` branch,
neither skipped nor duplicated. -/
theorem naca4_camber_piecewise (m p x : ℚ) (hp : p ≠ 0) :
    (x < p → yc4 m p x = m / p ^ 2 * (2 * p * x - x ^ 2) ∧
      dyc4 m p x = 2 * m / p ^ 2 * (p - x)) ∧
    (p ≤ x → yc4 m p x = m / (1 - p) ^ 2 * ((1 - 2 * p) + 2 * p * x - x ^ 2) ∧
      dyc4 m p x = 2 * m / (1 - p) ^ 2 * (p - x)) ∧
    yc4 m p p = m / (1 - p) ^ 2 * ((1 - 2 * p) + 2 * p * p - p ^ 2) ∧
    dyc4 m p p = 2 * m / (1 - p) ^ 2 * (p - p) := by
  refine ⟨fun hx => ?_, fun hx => ?_, ?_, ?_⟩
  · constructor <;> simp [yc4, dyc4, hx, hp]
  · constructor <;> simp [yc4, dyc4, not_lt.mpr hx, hp]
  · simp [yc4, hp]
  · simp [dyc4, hp]

/-- Witness for C1 at the NACA 2412 parameters `m = 0.02`, `p = 0.4` and
the sample `x = 0.2 < p`. -/
theorem naca4_camber_piecewise_witness :
    yc4 (2/100) (4/10) (2/10) =
      (2/100) / (4/10) ^ 2 * (2 * (4/10) * (2/10) - (2/10) ^ 2) :=
  ((naca4_camber_piecewise (2/100) (4/10) (2/10) (by norm_num)).1
    (by norm_num)).1

/-- C2 (code behaviour): the five-digit camber of the source evaluates
both sides of the piecewise split with the same quadratic expression
`(cld/6)*(3p^2 - 6px + 4x^2)`, and on the `x < p` side this differs from
the design cubic `(cld/6)*(3p^2 - 6px + 4x^3)` claimed by the
specification; shown at `cld = 0.3`, `p = 0.5` (designation 21012) with
samples `x = 1/4 < p` and `x = 3/4 ≥ p`. -/
theorem naca5_camber_branch_duplicated :
    yc5 (3/10) (1/2) (1/4) =
      (3/10) / 6 * (3 * (1/2) ^ 2 - 6 * (1/2) * (1/4) + 4 * (1/4) ^ 2) ∧
    yc5 (3/10) (1/2) (3/4) =
      (3/10) / 6 * (3 * (1/2) ^ 2 - 6 * (1/2) * (3/4) + 4 * (3/4) ^ 2) ∧
    yc5 (3/10) (1/2) (1/4) ≠
      (3/10) / 6 * (3 * (1/2) ^ 2 - 6 * (1/2) * (1/4) + 4 * (1/4) ^ 3) := by
  refine ⟨?_, ?_, ?_⟩ <;> norm_num [yc5]

/-- C3: for every designation, chord and sample count `n ≥ 2`, all three
generators return a point sequence of length exactly `2n - 1`. -/
theorem generate_length_invariant (naca : List Char) (chord : ℝ) (n : ℕ)
    (h : 2 ≤ n) :
    (generate_naca4 naca chord n).length = 2 * n - 1 ∧
    (generate_naca5 naca chord n).length = 2 * n - 1 ∧
    (generate_naca6 naca chord n).length = 2 * n - 1 := by
  refine ⟨?_, ?_, ?_⟩
  · rw [generate_naca4, naca4points_length]; omega
  · rw [generate_naca5, naca5points_length]; omega
  · rw [generate_naca6, naca6points_length]; omega

/-- Witness for C3 at designation 2412, chord 1 and `n = 2`. -/
theorem generate_length_invariant_witness :
    2 ≤ 2 ∧ (generate_naca4 ['2','4','1','2'] 1 2).length = 2 * 2 - 1 :=
  ⟨le_refl 2,
    (generate_length_invariant ['2','4','1','2'] 1 2 (le_refl 2)).1⟩

/-- C4: generation is linear in the chord: with the same designation and
sample count, every coordinate produced at chord 2 is twice the
corresponding coordinate produced at chord 1, for all three series. -/
theorem generate_chord_scaling (naca : List Char) (n : ℕ) :
    generate_naca4 naca 2 n =
      (generate_naca4 naca 1 n).map (fun q => (2 * q.1, 2 * q.2)) ∧
    generate_naca5 naca 2 n =
      (generate_naca5 naca 1 n).map (fun q => (2 * q.1, 2 * q.2)) ∧
    generate_naca6 naca 2 n =
      (generate_naca6 naca 1 n).map (fun q => (2 * q.1, 2 * q.2)) :=
  ⟨map_scale_two _, map_scale_two _, map_scale_two _⟩

/-- C5: when the camber position parameter `p` is zero, the four-digit
camber line and slope are identically zero at every sample (no division
by zero occurs, the guards skip both camber branches), and the generated
section is symmetric: for every output point `(x, y)` the point `(x, -y)`
is also in the output. -/
theorem naca4_p0_symmetric (m t : ℚ) (c : ℝ) (n : ℕ) :
    (∀ x : ℚ, yc4 m 0 x = 0 ∧ dyc4 m 0 x = 0) ∧
    ∀ q ∈ naca4points m 0 t c n, (q.1, -q.2) ∈ naca4points m 0 t c n := by
  refine ⟨fun x => ⟨yc4_p0 m x, dyc4_p0 m x⟩, fun q hq => ?_⟩
  rw [naca4points_p0_symm m t c n]
  exact List.mem_map_of_mem _ (List.mem_reverse.mpr hq)

/-- Witness for C5 at the parameters of designation 2012 (`m = 0.02`,
`p = 0`, `t = 0.12`), chord 1, `n = 2`: the mirror image of the first
output point is again an output point. -/
theorem naca4_p0_symmetric_witness :
    (((naca4points (2/100) 0 (12/100) 1 2).head naca4points_ex_ne_nil).1,
      -((naca4points (2/100) 0 (12/100) 1 2).head naca4points_ex_ne_nil).2)
      ∈ naca4points (2/100) 0 (12/100) 1 2 :=
  (naca4_p0_symmetric (2/100) (12/100) 1 2).2 _
    (List.head_mem naca4points_ex_ne_nil)

/-- C6: all three series share the standard thickness envelope
`yt(x) = 5t*(0.2969*sqrt(x) - 0.1260x - 0.3516x^2 + 0.2843x^3 - 0.1015x^4)`,
parameterized only by the thickness fraction `t` (stated for every
sample, hence in particular on `[0, 1]`). -/
theorem thickness_formula_shared (t x : ℚ) :
    yt4 t x = ytSpec t x ∧ yt5 t x = ytSpec t x ∧ yt6 t x = ytSpec t x := by
  refine ⟨rfl, ?_, ?_⟩ <;> norm_num [yt5, yt6, ytSpec]

/-- C7: a digit string whose length does not match the selected series or
which contains a non-digit character makes the dispatch fail with
`InvalidDesignation`; no generator runs and no point sequence is
produced. -/
theorem invalid_designation_rejected (s : Series) (naca : List Char)
    (chord : ℝ) (n : ℕ)
    (h : naca.length ≠ expectedLen s ∨ ¬ naca.all Char.isDigit = true) :
    dispatch s naca chord n = .error .invalidDesignation := by
  have hv : ¬ (validInput s naca = true) := by
    simp only [validInput, Bool.and_eq_true, beq_iff_eq, not_and]
    intro h1
    rcases h with h2 | h2
    · exact absurd h1 h2
    · exact h2
  rw [dispatch, if_neg hv]

/-- Witness for C7: the four-character string 24a2 contains a letter and
is rejected by the four-digit dispatch. -/
theorem invalid_designation_rejected_witness :
    dispatch Series.fourDigit ['2','4','a','2'] 1 100 =
      .error .invalidDesignation :=
  invalid_designation_rejected Series.fourDigit ['2','4','a','2'] 1 100
    (Or.inr (by decide))

/-- C8 (code behaviour): the source has no chord validation at all; the
dispatch called with designation 2412 and chord 0 returns a full point
sequence of `2*3 - 1 = 5` points instead of failing with an
`InvalidChord` error. -/
theorem chord_zero_returns_point_sequence :
    ∃ pts : List (ℝ × ℝ),
      dispatch Series.fourDigit ['2','4','1','2'] 0 3 = .ok pts ∧
      pts.length = 5 := by
  refine ⟨generate_naca4 ['2','4','1','2'] 0 3, ?_, ?_⟩
  · have hv : validInput Series.fourDigit ['2','4','1','2'] = true := by decide
    rw [dispatch, if_pos hv]
    rfl
  · rw [generate_naca4, naca4points_length]

/-- C9: the six-digit generator depends only on the thickness fraction
parsed from the final three digits: two six-digit designations agreeing
on their last three digits produce identical point sequences for any
chord and sample count. -/
theorem naca6_ignores_leading_digits (a b : List Char) (chord : ℝ) (n : ℕ)
    (_hda : a.all Char.isDigit = true) (_hdb : b.all Char.isDigit = true)
    (ha : a.length = 6) (hb : b.length = 6) (h : a.drop 3 = b.drop 3) :
    generate_naca6 a chord n = generate_naca6 b chord n := by
  rw [generate_naca6, generate_naca6, t6, t6, ha, hb]
  have h63 : (6 : ℕ) - 3 = 3 := rfl
  rw [h63, h]

/-- Witness for C9: designations 630012 and 999012 share the digits 012
and generate the same point sequence. -/
theorem naca6_ignores_leading_digits_witness :
    generate_naca6 ['6','3','0','0','1','2'] 1 100 =
      generate_naca6 ['9','9','9','0','1','2'] 1 100 :=
  naca6_ignores_leading_digits ['6','3','0','0','1','2']
    ['9','9','9','0','1','2'] 1 100 (by decide) (by decide) rfl rfl rfl

/-- C10: a four-digit designation whose second digit is 0 parses to
`p = 0`, so the camber line is identically zero and the generated section
is symmetric whatever the first digit (a nonzero maximum camber fraction
`m` is silently ignored). -/
theorem naca4_zero_position_digit_symmetric (naca : List Char) (c : ℝ)
    (n : ℕ) (hlen : naca.length = 4) (hdig : naca.all Char.isDigit = true)
    (hsec : naca.get? 1 = some '0') :
    (∀ x : ℚ, yc4 (m4 naca) (p4 naca) x = 0 ∧
      dyc4 (m4 naca) (p4 naca) x = 0) ∧
    ∀ q ∈ generate_naca4 naca c n,
      (q.1, -q.2) ∈ generate_naca4 naca c n := by
  have hp : p4 naca = 0 := by
    rcases naca with _ | ⟨a, _ | ⟨b, rest⟩⟩
    · simp at hlen
    · simp at hlen
    · simp only [List.get?] at hsec
      have hb : b = '0' := by
        injection hsec
      subst hb
      have h1 : intOfDigits (((a :: '0' :: rest).drop 1).take 1) = 0 := rfl
      rw [p4, h1]
      norm_num
  rw [generate_naca4, hp]
  refine ⟨fun x => ⟨by rw [hp] at *; exact yc4_p0 _ x,
    by rw [hp] at *; exact dyc4_p0 _ x⟩, fun q hq => ?_⟩
  rw [naca4points_p0_symm]
  exact List.mem_map_of_mem _ (List.mem_reverse.mpr hq)

/-- Witness for C10 at designation 9012 (first digit 9 gives a nonzero
`m`, second digit 0), chord 1, `n = 2`. -/
theorem naca4_zero_position_digit_symmetric_witness :
    (∀ x : ℚ, yc4 (m4 ['9','0','1','2']) (p4 ['9','0','1','2']) x = 0 ∧
      dyc4 (m4 ['9','0','1','2']) (p4 ['9','0','1','2']) x = 0) ∧
    ∀ q ∈ generate_naca4 ['9','0','1','2'] 1 2,
      (q.1, -q.2) ∈ generate_naca4 ['9','0','1','2'] 1 2 :=
  naca4_zero_position_digit_symmetric ['9','0','1','2'] 1 2 rfl (by decide)
    rfl

end Naca
